/-
Verification of the startup/shutdown orchestrator in
`src/CardinalRemote/main.cpp` (Cardinal remote host bootstrap).

The development shallowly embeds the path-resolution block, the
scratch-directory allocation loop, the context-graph construction and
teardown sequences, and the top-level orchestration of `main`, and proves
the spec's claims about them.
-/
import Mathlib

namespace CardinalRemote

/-! ## Path joining

`rack::system::join` is external collaborator code (the Rack library), not
part of this fragment. -/

/-- Modelled from the spec: `rack::system::join` (an external collaborator of
this fragment) joins two path segments with a separator; the spec's
end-to-end scenarios join with `/` (e.g. `/usr/local/share/cardinal` joined
with `template.vcv` gives `/usr/local/share/cardinal/template.vcv`). -/
def sysJoin (a b : String) : String := a ++ "/" ++ b

/-! ## PathResolver (main.cpp lines 101–131)

The build-time configuration consists of the optional
`CARDINAL_PLUGIN_SOURCE_DIR` macro, the `DISTRHO_OS_SEP_STR` separator
macro, the target platform (`ARCH_MAC` / `ARCH_WIN` / default), and the
`CARDINAL_PLUGIN_PREFIX` macro.  The Windows common-program-files query
result and the filesystem existence check are run-time inputs. -/

inductive Platform : Type
  | mac
  | win
  | unix
deriving DecidableEq

structure BuildConfig where
  /-- `CARDINAL_PLUGIN_SOURCE_DIR`; `none` when the macro is not defined. -/
  sourceDir : Option String
  /-- `DISTRHO_OS_SEP_STR`. -/
  osSep : String
  platform : Platform
  /-- `CARDINAL_PLUGIN_PREFIX`. -/
  pluginPrefix : String

/-- The four resolved path values: the globals `asset::systemDir`,
`asset::userDir`, `asset::bundlePath` and the local `templatePath`. -/
structure ResolveResult where
  systemDir : String
  userDir : String
  bundlePath : String
  templatePath : String
deriving DecidableEq, Repr

/-- The system directory computed by the platform-default fallback block
(main.cpp lines 114–122).  `sd0` is the value `asset::systemDir` holds on
entry to the block: on Windows with an empty common-program-files query no
assignment happens and the global keeps that value. -/
def fallbackSystemDir (cfg : BuildConfig) (commonProgFiles sd0 : String) :
    String :=
  match cfg.platform with
  | .mac => "/Library/Application Support/Cardinal"
  | .win =>
      if commonProgFiles ≠ "" then sysJoin commonProgFiles "Cardinal"
      else sd0
  | .unix => cfg.pluginPrefix ++ "/share/cardinal"

/-- The platform-default fallback block, main.cpp lines 113–129.  On entry
the globals hold the values assigned so far (`sd0` is whatever line 104
left in `asset::systemDir`, or `""` when `CARDINAL_PLUGIN_SOURCE_DIR` is
undefined; `bp0` and `tp0` — `asset::bundlePath` and `templatePath` — are
still empty).  Line 131 (`asset::userDir = asset::systemDir`) is folded
into the result. -/
def fallbackBlock (cfg : BuildConfig) (commonProgFiles sd0 bp0 tp0 : String) :
    ResolveResult :=
  if fallbackSystemDir cfg commonProgFiles sd0 ≠ "" then
    { systemDir := fallbackSystemDir cfg commonProgFiles sd0
      userDir := fallbackSystemDir cfg commonProgFiles sd0
      bundlePath := sysJoin (fallbackSystemDir cfg commonProgFiles sd0)
        "PluginManifests"
      templatePath := sysJoin (fallbackSystemDir cfg commonProgFiles sd0)
        "template.vcv" }
  else
    { systemDir := fallbackSystemDir cfg commonProgFiles sd0
      userDir := fallbackSystemDir cfg commonProgFiles sd0
      bundlePath := bp0
      templatePath := tp0 }

/-- Path resolution, main.cpp lines 101–131.  `fsExists` models
`rack::system::exists`.  When `CARDINAL_PLUGIN_SOURCE_DIR` is defined, line
104 sets `asset::systemDir` to `CARDINAL_PLUGIN_SOURCE_DIR
DISTRHO_OS_SEP_STR "Rack"` (literal string concatenation); if
`<systemDir>/res` exists, line 108 sets `templatePath` to
`CARDINAL_PLUGIN_SOURCE_DIR DISTRHO_OS_SEP_STR "template.vcv"`, otherwise
the fallback block runs with `asset::systemDir` still holding the line-104
value.  Line 131 sets `asset::userDir = asset::systemDir` in every case. -/
def resolvePaths (cfg : BuildConfig) (fsExists : String → Bool)
    (commonProgFiles : String) : ResolveResult :=
  match cfg.sourceDir with
  | some srcDir =>
      if fsExists (sysJoin (srcDir ++ cfg.osSep ++ "Rack") "res") then
        { systemDir := srcDir ++ cfg.osSep ++ "Rack"
          userDir := srcDir ++ cfg.osSep ++ "Rack"
          bundlePath := ""
          templatePath := srcDir ++ cfg.osSep ++ "template.vcv" }
      else
        fallbackBlock cfg commonProgFiles (srcDir ++ cfg.osSep ++ "Rack")
          "" ""
  | none => fallbackBlock cfg commonProgFiles "" "" ""

/-! ## Installation warnings (main.cpp lines 142–151)

`if (asset::systemDir.empty()) … else if (! system::exists(asset::systemDir)) …`.
The embedding is instrumented: it also returns the list of paths whose
on-disk existence was queried, so that "the existence check is not
performed" is a statement of the model rather than a reading of it. -/

inductive InstallWarning : Type
  | emptySystemDir
  | missingSystemDir
deriving DecidableEq, Repr

/-- The warning block, returning the warnings emitted together with the
list of paths passed to `system::exists` while deciding them. -/
def installWarnings (systemDir : String) (fsExists : String → Bool) :
    List InstallWarning × List String :=
  if systemDir = "" then
    ([.emptySystemDir], [])
  else if ! fsExists systemDir then
    ([.missingSystemDir], [systemDir])
  else
    ([], [systemDir])

/-! ## ScratchDirectoryAllocator (main.cpp lines 160–178)

```
char uidBuf[24];
const std::string tmp = rack::system::getTempDirectory();
for (int i=1;; ++i) {
    std::snprintf(uidBuf, sizeof(uidBuf), "CardinalRemote.%04d", i);
    const std::string trypath = rack::system::join(tmp, uidBuf);
    if (! rack::system::exists(trypath)) {
        if (rack::system::createDirectories(trypath))
            autosavePath = trypath;
        break;
    }
}
```
wrapped in `try { … } DISTRHO_SAFE_EXCEPTION(…)`, which catches every
exception and leaves `autosavePath` empty. -/

/-- The decimal digit character `'0' + n` produced by `%d`. -/
def digitChar (n : Nat) : Char := Char.ofNat (48 + n)

/-- Big-endian decimal digits of `n`, with recursion fuel as the first
argument; any fuel at least the digit count of `n` gives the digits. -/
def decReprAux : Nat → Nat → List Char
  | 0, _ => []
  | fuel + 1, n =>
    if n < 10 then [digitChar n]
    else decReprAux fuel (n / 10) ++ [digitChar (n % 10)]

/-- The decimal representation of `n` as a character list (`%d`). -/
def decRepr (n : Nat) : List Char := decReprAux (n + 1) n

/-- `%04d`: the decimal digits left-padded with `'0'` to a minimum width of
four characters. -/
def pad4 (s : List Char) : List Char :=
  List.replicate (4 - s.length) (digitChar 0) ++ s

/-- `snprintf(uidBuf, sizeof(uidBuf), "CardinalRemote.%04d", i)` with
`char uidBuf[24]` (main.cpp line 168): the formatted text truncated to the
23 characters that fit in the buffer beside the terminator. -/
def formatUid (i : Nat) : String :=
  ⟨(("CardinalRemote." : String).data ++ pad4 (decRepr i)).take 23⟩

/-- The candidate path for counter value `i` (main.cpp line 169). -/
def tryPath (tmp : String) (i : Nat) : String := sysJoin tmp (formatUid i)

/-- Result of one filesystem call inside the `try` block: a boolean, or a
raised exception. -/
inductive FsAnswer : Type
  | ok (b : Bool)
  | exc
deriving DecidableEq, Repr

/-- Filesystem behaviour seen by the allocation loop:
`rack::system::exists` and `rack::system::createDirectories`, each allowed
to raise. -/
structure ScratchFs where
  pathExists : String → FsAnswer
  createDirs : String → FsAnswer

/-- Outcome of the allocation block: `done p` when the `try` block
completes with `autosavePath = p` (possibly the empty sentinel, after a
caught exception or a failed creation); `outOfFuel` when the supplied
recursion fuel ran out before a non-existing candidate was reached — the C
loop, which has no fuel, would still be running. -/
inductive AllocResult : Type
  | done (path : String)
  | outOfFuel
deriving DecidableEq, Repr

/-- The allocation loop starting at counter `i`.  Each iteration mirrors
lines 166–177: build the candidate; if the existence check raises, the
surrounding handler catches and `autosavePath` stays empty; if the
candidate exists, increment and continue; otherwise create it and stop —
the path on successful creation, the empty sentinel on failed or raising
creation. -/
def allocLoop (fs : ScratchFs) (tmp : String) : Nat → Nat → AllocResult
  | 0, _ => .outOfFuel
  | fuel + 1, i =>
    match fs.pathExists (tryPath tmp i) with
    | .exc => .done ""
    | .ok true => allocLoop fs tmp fuel (i + 1)
    | .ok false =>
      match fs.createDirs (tryPath tmp i) with
      | .exc => .done ""
      | .ok true => .done (tryPath tmp i)
      | .ok false => .done ""

/-- The scratch-directory allocation block: the loop starts at `i = 1`
(main.cpp line 166). -/
def allocScratch (fs : ScratchFs) (tmp : String) (fuel : Nat) : AllocResult :=
  allocLoop fs tmp fuel 1

/-- The outcome the loop produces at its stopping index `j` (the first
candidate whose existence check does not return `true`). -/
def stopAt (fs : ScratchFs) (tmp : String) (j : Nat) : AllocResult :=
  match fs.pathExists (tryPath tmp j) with
  | .exc => .done ""
  | .ok true => .outOfFuel
  | .ok false =>
    match fs.createDirs (tryPath tmp j) with
    | .exc => .done ""
    | .ok true => .done (tryPath tmp j)
    | .ok false => .done ""

/-! ## The isolation scenario of C2

Repeated runs of the allocation block in one temp root: no pre-existing
candidate directories, every creation succeeds and becomes visible to later
existence checks, nothing is deleted in between. -/

/-- Filesystem in the isolation scenario: exactly the directories in
`created` exist, and every creation succeeds. -/
def isolatedFs (created : List String) : ScratchFs :=
  { pathExists := fun p => .ok (created.contains p)
    createDirs := fun _ => .ok true }

/-- `k` successive runs of the allocation block.  Returns the directories
on disk and the per-call results, in call order: a successful call's path
is appended to the disk state. -/
def scenario (tmp : String) (fuel : Nat) : Nat → List String × List AllocResult
  | 0 => ([], [])
  | k + 1 =>
    let prev := scenario tmp fuel k
    match allocScratch (isolatedFs prev.1) tmp fuel with
    | .done p =>
        (if p = "" then prev.1 else prev.1 ++ [p], prev.2 ++ [.done p])
    | .outOfFuel => (prev.1, prev.2 ++ [.outOfFuel])

/-- C2's property of `N` isolated allocator calls: some recursion fuel (the
C loop has none, so the fuel is existentially quantified) makes every call
`k ∈ [1, N]` complete with the candidate path for counter `k` — the
zero-padded suffixes `0001, 0002, …` in increasing order — with that path
on disk immediately after the call, and all candidate paths for distinct
counters in `[1, N]` pairwise distinct. -/
def isolationClaim (tmp : String) (N : Nat) : Prop :=
  ∃ fuel, ∀ k, 1 ≤ k → k ≤ N →
    (scenario tmp fuel k).2.getLast? = some (.done (tryPath tmp k)) ∧
    (scenario tmp fuel k).1.contains (tryPath tmp k) = true ∧
    ∀ j, 1 ≤ j → j ≤ N → j ≠ k → tryPath tmp j ≠ tryPath tmp k

/-! ## ContextGraph construction (main.cpp lines 180–200)

Each `new` allocates a distinct object; the model draws object identities
from a running counter so that "the very same object" is expressible. -/

/-- State of the construction sequence: the id counter, the constructed
object handles, the process-wide registration made by `rack::contextSet`,
the run parameters, the patch manager's paths, the event state's
root-widget back-reference, and the two final operations. -/
structure BuildState where
  nextId : Nat
  context : Option Nat
  registered : Option Nat
  bufferSize : Option Nat
  sampleRate : Option Nat
  engine : Option Nat
  engineSampleRate : Option Nat
  history : Option Nat
  patch : Option Nat
  patchAutosavePath : Option String
  patchTemplatePath : Option String
  event : Option Nat
  scene : Option Nat
  eventRootWidget : Option Nat
  window : Option Nat
  templateLoaded : Bool
  scrollReset : Bool
deriving DecidableEq, Repr

/-- Allocate a fresh object identity. -/
def allocObj (s : BuildState) : Nat × BuildState :=
  (s.nextId, { s with nextId := s.nextId + 1 })

/-- The state before line 180: nothing constructed. -/
def initialBuildState : BuildState :=
  { nextId := 0, context := none, registered := none, bufferSize := none,
    sampleRate := none, engine := none, engineSampleRate := none,
    history := none, patch := none, patchAutosavePath := none,
    patchTemplatePath := none, event := none, scene := none,
    eventRootWidget := none, window := none, templateLoaded := false,
    scrollReset := false }

/-- The construction sequence, main.cpp lines 180–200, one step per source
line: context (180), `rack::contextSet(&context)` (181), run parameters
(183–184), engine (186) and its sample rate (187), history (189), patch
manager with its autosave and template paths (190–192), event state (194),
scene (195), `context.event->rootWidget = context.scene` (196), window
(197), `loadTemplate()` (199), `rackScroll->reset()` (200). -/
def buildContextGraph (autosavePath templatePath : String) : BuildState :=
  let a0 := allocObj initialBuildState
  let s1 := { a0.2 with context := some a0.1 }
  let s2 := { s1 with registered := s1.context }
  let s3 := { s2 with bufferSize := some 512, sampleRate := some 48000 }
  let a1 := allocObj s3
  let s5 := { a1.2 with engine := some a1.1 }
  let s6 := { s5 with engineSampleRate := s5.sampleRate }
  let a2 := allocObj s6
  let s8 := { a2.2 with history := some a2.1 }
  let a3 := allocObj s8
  let s10 := { a3.2 with
    patch := some a3.1
    patchAutosavePath := some autosavePath
    patchTemplatePath := some templatePath }
  let a4 := allocObj s10
  let s12 := { a4.2 with event := some a4.1 }
  let a5 := allocObj s12
  let s14 := { a5.2 with scene := some a5.1 }
  let s15 := { s14 with eventRootWidget := s14.scene }
  let a6 := allocObj s15
  let s17 := { a6.2 with window := some a6.1 }
  { s17 with templateLoaded := true, scrollReset := true }

/-! ## Teardown (main.cpp lines 216–233) -/

/-- Process state over which teardown runs: the disk, the locals
`autosavePath` and `templatePath` of `main`, the three asset globals, and
the teardown progress flags. -/
structure AppState where
  fsExists : String → Bool
  autosavePath : String
  templatePath : String
  systemDir : String
  userDir : String
  bundlePath : String
  patchCleared : Bool
  pluginsDestroyed : Bool
  settingsDestroyed : Bool
  loggerDestroyed : Bool

/-- Modelled from the spec: `rack::system::removeRecursively` (an external
collaborator of this fragment) recursively deletes a directory — after it
runs, the path and everything below it no longer exist on disk. -/
def removeRecursively (fsExists : String → Bool) (root : String) :
    String → Bool :=
  fun p => if p = root ∨ p.startsWith (root ++ "/") then false else fsExists p

/-- Teardown, main.cpp lines 216–233: clear the patch (216), delete the
scratch directory if one was allocated (218–219), clear the globals
`asset::bundlePath`, `asset::systemDir`, `asset::userDir` (222–224) — the
local `templatePath` is not touched — then destroy plugins (227), settings
(230) and the logger (233). -/
def teardown (s : AppState) : AppState :=
  { s with
    patchCleared := true
    fsExists :=
      if s.autosavePath ≠ "" then removeRecursively s.fsExists s.autosavePath
      else s.fsExists
    bundlePath := ""
    systemDir := ""
    userDir := ""
    pluginsDestroyed := true
    settingsDestroyed := true
    loggerDestroyed := true }

/-! ## The full run of `main` (lines 63–236) -/

/-- Everything a completed run produces: the resolved paths, the warnings,
the scratch path, the constructed context graph, the state after teardown,
and the process exit code. -/
structure RunOutcome where
  paths : ResolveResult
  warnings : List InstallWarning
  autosavePath : String
  built : BuildState
  final : AppState
  exitCode : Nat

/-- The tail of a run once the allocation block has produced
`autosavePath`: construct the context graph, run the UI loop (external),
tear everything down, `return 0` (line 235). -/
def finishRun (paths : ResolveResult) (warnings : List InstallWarning)
    (fsExists : String → Bool) (autosavePath : String) : RunOutcome :=
  { paths := paths
    warnings := warnings
    autosavePath := autosavePath
    built := buildContextGraph autosavePath paths.templatePath
    final := teardown
      { fsExists := fsExists, autosavePath := autosavePath,
        templatePath := paths.templatePath, systemDir := paths.systemDir,
        userDir := paths.userDir, bundlePath := paths.bundlePath,
        patchCleared := false, pluginsDestroyed := false,
        settingsDestroyed := false, loggerDestroyed := false }
    exitCode := 0 }

/-- A run of `main`: resolve paths, emit warnings, allocate the scratch
directory, then finish.  `none` when the model fuel runs out before the
allocation loop stops — the real loop, which has no fuel, would still be
running and `main` would not return. -/
def runMain (cfg : BuildConfig) (fsExists : String → Bool)
    (commonProgFiles : String) (allocFs : ScratchFs) (tmp : String)
    (fuel : Nat) : Option RunOutcome :=
  match allocScratch allocFs tmp fuel with
  | .done p =>
      some (finishRun (resolvePaths cfg fsExists commonProgFiles)
        (installWarnings (resolvePaths cfg fsExists commonProgFiles).systemDir
          fsExists).1
        fsExists p)
  | .outOfFuel => none

/-! ## Concrete instances used by counterexamples and witnesses -/

/-- Concrete configuration used in path-resolution counterexamples:
a Unix build with `CARDINAL_PLUGIN_SOURCE_DIR = "/src"`. -/
def cfgSrc : BuildConfig :=
  { sourceDir := some "/src", osSep := "/", platform := .unix,
    pluginPrefix := "/usr/local" }

/-- Filesystem for the C1 counterexample: both `/src/res` and
`/src/Rack/res` exist (so the resource subfolder exists under the override
on any reading), and so does `/src/template.vcv`. -/
def fsC1 : String → Bool := fun p =>
  p = "/src/res" ∨ p = "/src/Rack/res" ∨ p = "/src/template.vcv"

/-- Filesystem for the C6 counterexample: `/src/Rack/res` exists but
`/src/template.vcv` does not. -/
def fsC6 : String → Bool := fun p => p = "/src/Rack/res"

/-- Allocator filesystem on which every candidate is free but creation
always fails, as with a read-only temp root. -/
def fsCreateFail : ScratchFs :=
  { pathExists := fun _ => .ok false
    createDirs := fun _ => .ok false }

/-- A concrete state after a successful run on a Unix install: template
patch resolved, scratch directory allocated, everything on disk. -/
def stateAfterRun : AppState :=
  { fsExists := fun _ => true
    autosavePath := "/tmp/CardinalRemote.0001"
    templatePath := "/usr/local/share/cardinal/template.vcv"
    systemDir := "/usr/local/share/cardinal"
    userDir := "/usr/local/share/cardinal"
    bundlePath := "/usr/local/share/cardinal/PluginManifests"
    patchCleared := false
    pluginsDestroyed := false
    settingsDestroyed := false
    loggerDestroyed := false }

/-! ## String helpers -/

/-- A string with a non-empty literal appended is non-empty. -/
theorem append_ne_empty_of_right (a b : String) (hb : b.data ≠ []) :
    a ++ b ≠ "" := by
  intro h
  have hd := congrArg String.data h
  rw [String.data_append] at hd
  exact hb (List.append_eq_nil.mp (hd.trans rfl)).2

/-! ## Unfolding equations of the path resolver -/

/-- Unfolding equation: override configured and its `res` subfolder found. -/
theorem resolvePaths_some_res (cfg : BuildConfig) (fsExists : String → Bool)
    (commonProgFiles srcDir : String) (hsrc : cfg.sourceDir = some srcDir)
    (hres : fsExists (sysJoin (srcDir ++ cfg.osSep ++ "Rack") "res") = true) :
    resolvePaths cfg fsExists commonProgFiles =
      { systemDir := srcDir ++ cfg.osSep ++ "Rack"
        userDir := srcDir ++ cfg.osSep ++ "Rack"
        bundlePath := ""
        templatePath := srcDir ++ cfg.osSep ++ "template.vcv" } := by
  unfold resolvePaths
  rw [hsrc]
  simp only [hres, if_true]

/-- Unfolding equation: override configured but its `res` subfolder
missing. -/
theorem resolvePaths_some_nores (cfg : BuildConfig) (fsExists : String → Bool)
    (commonProgFiles srcDir : String) (hsrc : cfg.sourceDir = some srcDir)
    (hres :
      fsExists (sysJoin (srcDir ++ cfg.osSep ++ "Rack") "res") = false) :
    resolvePaths cfg fsExists commonProgFiles =
      fallbackBlock cfg commonProgFiles (srcDir ++ cfg.osSep ++ "Rack")
        "" "" := by
  unfold resolvePaths
  rw [hsrc]
  simp only [hres, Bool.false_eq_true, if_false]

/-- Unfolding equation: no override configured. -/
theorem resolvePaths_none (cfg : BuildConfig) (fsExists : String → Bool)
    (commonProgFiles : String) (hsrc : cfg.sourceDir = none) :
    resolvePaths cfg fsExists commonProgFiles =
      fallbackBlock cfg commonProgFiles "" "" "" := by
  unfold resolvePaths
  rw [hsrc]

/-- Unfolding equation for the fallback block when its system directory is
non-empty. -/
theorem fallbackBlock_ne_empty (cfg : BuildConfig)
    (commonProgFiles sd0 bp0 tp0 : String)
    (h : fallbackSystemDir cfg commonProgFiles sd0 ≠ "") :
    fallbackBlock cfg commonProgFiles sd0 bp0 tp0 =
      { systemDir := fallbackSystemDir cfg commonProgFiles sd0
        userDir := fallbackSystemDir cfg commonProgFiles sd0
        bundlePath := sysJoin (fallbackSystemDir cfg commonProgFiles sd0)
          "PluginManifests"
        templatePath := sysJoin (fallbackSystemDir cfg commonProgFiles sd0)
          "template.vcv" } := by
  unfold fallbackBlock
  rw [if_pos h]

/-- Unfolding equation for the fallback block when its system directory is
empty. -/
theorem fallbackBlock_empty (cfg : BuildConfig)
    (commonProgFiles sd0 bp0 tp0 : String)
    (h : fallbackSystemDir cfg commonProgFiles sd0 = "") :
    fallbackBlock cfg commonProgFiles sd0 bp0 tp0 =
      { systemDir := "", userDir := "", bundlePath := bp0,
        templatePath := tp0 } := by
  unfold fallbackBlock
  rw [if_neg (not_not_intro h), h]

/-! ## Properties of the decimal formatter -/

/-- `decReprAux` does not depend on the fuel once the fuel bounds the digit
count. -/
theorem decReprAux_congr : ∀ f₁ f₂ n, 0 < f₁ → 0 < f₂ →
    n < 10 ^ f₁ → n < 10 ^ f₂ → decReprAux f₁ n = decReprAux f₂ n := by
  intro f₁
  induction f₁ with
  | zero => intro f₂ n h; exact absurd h (lt_irrefl 0)
  | succ fuel₁ ih =>
    intro f₂ n _ hf₂ hn₁ hn₂
    cases f₂ with
    | zero => exact absurd hf₂ (lt_irrefl 0)
    | succ fuel₂ =>
      simp only [decReprAux]
      by_cases h10 : n < 10
      · rw [if_pos h10, if_pos h10]
      · rw [if_neg h10, if_neg h10]
        have hfuel₁ : 0 < fuel₁ := by
          by_contra hz
          have : fuel₁ = 0 := by omega
          subst this
          simp at hn₁
          omega
        have hfuel₂ : 0 < fuel₂ := by
          by_contra hz
          have : fuel₂ = 0 := by omega
          subst this
          simp at hn₂
          omega
        have hd₁ : n / 10 < 10 ^ fuel₁ := by
          rw [Nat.div_lt_iff_lt_mul (by norm_num : (0:ℕ) < 10)]
          calc n < 10 ^ (fuel₁ + 1) := hn₁
            _ = 10 ^ fuel₁ * 10 := by rw [pow_succ]
        have hd₂ : n / 10 < 10 ^ fuel₂ := by
          rw [Nat.div_lt_iff_lt_mul (by norm_num : (0:ℕ) < 10)]
          calc n < 10 ^ (fuel₂ + 1) := hn₂
            _ = 10 ^ fuel₂ * 10 := by rw [pow_succ]
        rw [ih fuel₂ (n / 10) hfuel₁ hfuel₂ hd₁ hd₂]

/-- One-digit unfolding of `decRepr`. -/
theorem decRepr_lt (n : Nat) (h : n < 10) : decRepr n = [digitChar n] := by
  unfold decRepr
  simp only [decReprAux, if_pos h]

/-- Multi-digit unfolding of `decRepr`. -/
theorem decRepr_ge (n : Nat) (h : 10 ≤ n) :
    decRepr n = decRepr (n / 10) ++ [digitChar (n % 10)] := by
  unfold decRepr
  simp only [decReprAux, if_neg (by omega : ¬ n < 10)]
  congr 1
  have h1 : 0 < n := by omega
  exact decReprAux_congr n (n / 10 + 1) (n / 10) h1 (Nat.succ_pos _)
    (lt_of_le_of_lt (Nat.div_le_self n 10) (Nat.lt_pow_self (by norm_num) n))
    (lt_of_lt_of_le (Nat.lt_pow_self (by norm_num) (n / 10))
      (Nat.pow_le_pow_right (by norm_num) (Nat.le_succ _)))

/-- The decimal representation is never the empty list. -/
theorem decRepr_ne_nil (n : Nat) : decRepr n ≠ [] := by
  by_cases h : n < 10
  · rw [decRepr_lt n h]; simp
  · rw [decRepr_ge n (by omega)]; simp

/-- Numbers below `10 ^ k` have at most `k` decimal digits. -/
theorem decRepr_length_le : ∀ k n, 0 < k → n < 10 ^ k →
    (decRepr n).length ≤ k := by
  intro k
  induction k with
  | zero => intro n h; exact absurd h (lt_irrefl 0)
  | succ k ih =>
    intro n _ hn
    by_cases h10 : n < 10
    · rw [decRepr_lt n h10]
      simp
    · have hk : 0 < k := by
        by_contra hz
        have : k = 0 := by omega
        subst this
        simp at hn
        omega
      rw [decRepr_ge n (by omega)]
      rw [List.length_append]
      have : n / 10 < 10 ^ k := by
        rw [Nat.div_lt_iff_lt_mul (by norm_num : (0:ℕ) < 10)]
        calc n < 10 ^ (k + 1) := hn
          _ = 10 ^ k * 10 := by rw [pow_succ]
      have := ih (n / 10) hk this
      simp only [List.length_singleton]
      omega

/-- The leading decimal digit of a positive number is not `'0'`. -/
theorem decRepr_head_ne_zero (n : Nat) (h : 1 ≤ n) :
    ∃ c cs, decRepr n = c :: cs ∧ c ≠ digitChar 0 := by
  induction n using Nat.strong_induction_on with
  | _ n ih =>
    by_cases h10 : n < 10
    · refine ⟨digitChar n, [], decRepr_lt n h10, ?_⟩
      interval_cases n <;> decide
    · obtain ⟨c, cs, hc, hc0⟩ :=
        ih (n / 10) (Nat.div_lt_self (by omega) (by norm_num))
          (Nat.one_le_div_iff (by norm_num) |>.mpr (by omega))
      refine ⟨c, cs ++ [digitChar (n % 10)], ?_, hc0⟩
      rw [decRepr_ge n (by omega), hc]
      rfl

/-- Digit characters are distinct for distinct digits. -/
theorem digitChar_inj {m n : Nat} (hm : m < 10) (hn : n < 10)
    (h : digitChar m = digitChar n) : m = n := by
  interval_cases m <;> interval_cases n <;> revert h <;> decide

/-- The decimal representation is injective. -/
theorem decRepr_inj : ∀ m n, decRepr m = decRepr n → m = n := by
  intro m
  induction m using Nat.strong_induction_on with
  | _ m ih =>
    intro n h
    by_cases hm : m < 10 <;> by_cases hn : n < 10
    · rw [decRepr_lt m hm, decRepr_lt n hn] at h
      exact digitChar_inj hm hn (List.cons_eq_cons.mp h).1
    · rw [decRepr_lt m hm, decRepr_ge n (by omega)] at h
      have hl := congrArg List.length h
      rw [List.length_append] at hl
      simp only [List.length_singleton] at hl
      have : (decRepr (n / 10)).length = 0 := by omega
      exact absurd (List.length_eq_zero.mp this) (decRepr_ne_nil _)
    · rw [decRepr_ge m (by omega), decRepr_lt n hn] at h
      have hl := congrArg List.length h
      rw [List.length_append] at hl
      simp only [List.length_singleton] at hl
      have : (decRepr (m / 10)).length = 0 := by omega
      exact absurd (List.length_eq_zero.mp this) (decRepr_ne_nil _)
    · rw [decRepr_ge m (by omega), decRepr_ge n (by omega)] at h
      obtain ⟨h1, h2⟩ := List.append_inj' h rfl
      have hdiv : m / 10 = n / 10 :=
        ih (m / 10) (Nat.div_lt_self (by omega) (by norm_num)) (n / 10) h1
      have hmod : m % 10 = n % 10 :=
        digitChar_inj (Nat.mod_lt m (by norm_num)) (Nat.mod_lt n (by norm_num))
          (List.cons_eq_cons.mp h2).1
      omega

/-- Dropping leading zero characters from a zero-padded representation
recovers the representation, provided it does not itself start with a
zero character. -/
theorem dropWhile_zeros (k : Nat) (c : Char) (cs : List Char)
    (hc : c ≠ digitChar 0) :
    (List.replicate k (digitChar 0) ++ c :: cs).dropWhile
        (fun x => x == digitChar 0) = c :: cs := by
  induction k with
  | zero => simp [List.dropWhile_cons, hc]
  | succ k ih => simpa [List.replicate_succ, List.dropWhile_cons] using ih

/-- Zero-padding to width four is injective on representations of positive
numbers. -/
theorem pad4_decRepr_inj (m n : Nat) (hm : 1 ≤ m) (hn : 1 ≤ n)
    (h : pad4 (decRepr m) = pad4 (decRepr n)) : m = n := by
  obtain ⟨c, cs, hcm, hc0⟩ := decRepr_head_ne_zero m hm
  obtain ⟨d, ds, hdn, hd0⟩ := decRepr_head_ne_zero n hn
  apply decRepr_inj
  have h1 : (pad4 (decRepr m)).dropWhile (fun x => x == digitChar 0)
      = decRepr m := by
    unfold pad4
    rw [hcm]
    exact dropWhile_zeros _ c cs hc0
  have h2 : (pad4 (decRepr n)).dropWhile (fun x => x == digitChar 0)
      = decRepr n := by
    unfold pad4
    rw [hdn]
    exact dropWhile_zeros _ d ds hd0
  rw [← h1, ← h2, h]

/-- Padded representations of numbers below `10 ^ 8` have at most eight
characters. -/
theorem pad4_decRepr_length_le (i : Nat) (h : i < 10 ^ 8) :
    (pad4 (decRepr i)).length ≤ 8 := by
  have := decRepr_length_le 8 i (by norm_num) h
  unfold pad4
  rw [List.length_append, List.length_replicate]
  omega

/-- Below `10 ^ 8` the 24-byte buffer does not truncate: `formatUid i` is
the full header plus the padded digits. -/
theorem formatUid_eq_of_lt (i : Nat) (h : i < 10 ^ 8) :
    formatUid i
      = ⟨("CardinalRemote." : String).data ++ pad4 (decRepr i)⟩ := by
  unfold formatUid
  congr 1
  apply List.take_of_length_le
  rw [List.length_append]
  have h8 := pad4_decRepr_length_le i h
  have hh : ("CardinalRemote." : String).data.length = 15 := by decide
  omega

/-- Candidate names are pairwise distinct for counters in `[1, 10^8)`. -/
theorem formatUid_inj (i j : Nat) (hi1 : 1 ≤ i) (hi : i < 10 ^ 8)
    (hj1 : 1 ≤ j) (hj : j < 10 ^ 8) (h : formatUid i = formatUid j) :
    i = j := by
  rw [formatUid_eq_of_lt i hi, formatUid_eq_of_lt j hj] at h
  have hd : ("CardinalRemote." : String).data ++ pad4 (decRepr i)
      = ("CardinalRemote." : String).data ++ pad4 (decRepr j) :=
    congrArg String.data h
  exact pad4_decRepr_inj i j hi1 hj1 (List.append_cancel_left hd)

/-- The formatted candidate name is never empty. -/
theorem formatUid_ne_empty (i : Nat) : formatUid i ≠ "" := by
  unfold formatUid
  intro h
  have hd : (("CardinalRemote." : String).data ++ pad4 (decRepr i)).take 23
      = [] := congrArg String.data h
  rw [List.take_eq_nil_iff] at hd
  rcases hd with h23 | hnil
  · exact absurd h23 (by decide)
  · exact absurd (List.append_eq_nil.mp hnil).1 (by decide)

/-- Candidate paths are pairwise distinct for counters in `[1, 10^8)`. -/
theorem tryPath_inj (tmp : String) (i j : Nat) (hi1 : 1 ≤ i)
    (hi : i < 10 ^ 8) (hj1 : 1 ≤ j) (hj : j < 10 ^ 8)
    (h : tryPath tmp i = tryPath tmp j) : i = j := by
  apply formatUid_inj i j hi1 hi hj1 hj
  unfold tryPath sysJoin at h
  have hd := congrArg String.data h
  rw [String.data_append, String.data_append] at hd
  exact String.ext (List.append_cancel_left hd)

/-- Candidate paths are never the empty sentinel. -/
theorem tryPath_ne_empty (tmp : String) (i : Nat) : tryPath tmp i ≠ "" := by
  unfold tryPath sysJoin
  intro h
  have hd := congrArg String.data h
  rw [String.data_append] at hd
  exact formatUid_ne_empty i
    (String.ext (List.append_eq_nil.mp (hd.trans rfl)).2)

/-! ## Properties of the allocation loop -/

/-- One iteration over an existing candidate moves to the next counter. -/
theorem allocLoop_skip (fs : ScratchFs) (tmp : String) (fuel i : Nat)
    (h : fs.pathExists (tryPath tmp i) = .ok true) :
    allocLoop fs tmp (fuel + 1) i = allocLoop fs tmp fuel (i + 1) := by
  conv_lhs => rw [allocLoop]
  rw [h]

/-- The loop stops at a candidate whose existence check does not return
`true`, with the outcome `stopAt` describes. -/
theorem allocLoop_stop (fs : ScratchFs) (tmp : String) (fuel j : Nat)
    (h : fs.pathExists (tryPath tmp j) ≠ .ok true) :
    allocLoop fs tmp (fuel + 1) j = stopAt fs tmp j := by
  have key : ∀ r, fs.pathExists (tryPath tmp j) = r → r ≠ .ok true →
      allocLoop fs tmp (fuel + 1) j = stopAt fs tmp j := by
    intro r hr hne
    unfold allocLoop stopAt
    rw [hr]
    cases r with
    | exc => rfl
    | ok b =>
        cases b with
        | true => exact absurd rfl hne
        | false => rfl
  exact key _ rfl h

/-- If every candidate from `start` up to (excluding) `j` exists and `j`'s
existence check does not return `true`, the loop started at `start` with
enough fuel produces exactly the stop outcome at `j`. -/
theorem allocLoop_reaches (fs : ScratchFs) (tmp : String) :
    ∀ fuel start j, start ≤ j → j < start + fuel →
      (∀ i, start ≤ i → i < j → fs.pathExists (tryPath tmp i) = .ok true) →
      fs.pathExists (tryPath tmp j) ≠ .ok true →
      allocLoop fs tmp fuel start = stopAt fs tmp j := by
  intro fuel
  induction fuel with
  | zero => intro start j h1 h2; omega
  | succ fuel ih =>
    intro start j hsj hlt hall hfree
    by_cases hstart : start = j
    · subst hstart
      exact allocLoop_stop fs tmp fuel start hfree
    · rw [allocLoop_skip fs tmp fuel start (hall start le_rfl (by omega))]
      exact ih (start + 1) j (by omega) (by omega)
        (fun i hi1 hi2 => hall i (by omega) hi2) hfree

/-- Stop outcome when the existence check raises. -/
theorem stopAt_exc (fs : ScratchFs) (tmp : String) (j : Nat)
    (h : fs.pathExists (tryPath tmp j) = .exc) :
    stopAt fs tmp j = .done "" := by
  unfold stopAt
  rw [h]

/-- Stop outcome at a free candidate whose creation succeeds. -/
theorem stopAt_create_true (fs : ScratchFs) (tmp : String) (j : Nat)
    (h : fs.pathExists (tryPath tmp j) = .ok false)
    (hc : fs.createDirs (tryPath tmp j) = .ok true) :
    stopAt fs tmp j = .done (tryPath tmp j) := by
  unfold stopAt
  rw [h, hc]

/-- Stop outcome at a free candidate whose creation fails. -/
theorem stopAt_create_false (fs : ScratchFs) (tmp : String) (j : Nat)
    (h : fs.pathExists (tryPath tmp j) = .ok false)
    (hc : fs.createDirs (tryPath tmp j) = .ok false) :
    stopAt fs tmp j = .done "" := by
  unfold stopAt
  rw [h, hc]

/-- Stop outcome at a free candidate whose creation raises. -/
theorem stopAt_create_exc (fs : ScratchFs) (tmp : String) (j : Nat)
    (h : fs.pathExists (tryPath tmp j) = .ok false)
    (hc : fs.createDirs (tryPath tmp j) = .exc) :
    stopAt fs tmp j = .done "" := by
  unfold stopAt
  rw [h, hc]

/-! ## The isolation scenario -/

/-- `List.contains` agrees with membership for strings. -/
theorem contains_iff_mem {l : List String} {x : String} :
    l.contains x = true ↔ x ∈ l := by
  simp [List.contains, List.elem_iff]

/-- In the isolation scenario with fewer than `10^8` calls already made,
every call completes and returns the next candidate path: after `k` calls
the disk holds exactly the candidates `1, …, k` and the results are exactly
`done (tryPath 1), …, done (tryPath k)`. -/
theorem scenario_eq (tmp : String) (fuel N : Nat) (hN : N ≤ 99999999)
    (hfuel : N ≤ fuel) :
    ∀ k, k ≤ N →
      scenario tmp fuel k
        = ((List.range' 1 k).map (tryPath tmp),
           (List.range' 1 k).map (fun i => AllocResult.done (tryPath tmp i)))
      := by
  intro k
  induction k with
  | zero => intro _; rfl
  | succ k ih =>
    intro hk
    have hprev := ih (by omega)
    have hcall :
        allocScratch (isolatedFs ((List.range' 1 k).map (tryPath tmp))) tmp
            fuel
          = .done (tryPath tmp (k + 1)) := by
      have hmin : ∀ i, 1 ≤ i → i < k + 1 →
          (isolatedFs ((List.range' 1 k).map (tryPath tmp))).pathExists
              (tryPath tmp i) = .ok true := by
        intro i hi1 hi2
        show FsAnswer.ok (((List.range' 1 k).map (tryPath tmp)).contains
            (tryPath tmp i)) = .ok true
        congr 1
        exact contains_iff_mem.mpr
          (List.mem_map_of_mem (tryPath tmp)
            (List.mem_range'_1.mpr ⟨hi1, by omega⟩))
      have hfree :
          (isolatedFs ((List.range' 1 k).map (tryPath tmp))).pathExists
              (tryPath tmp (k + 1)) ≠ .ok true := by
        intro hcontra
        have hmem : tryPath tmp (k + 1)
            ∈ (List.range' 1 k).map (tryPath tmp) := by
          apply contains_iff_mem.mp
          have := FsAnswer.ok.inj hcontra
          exact this
        obtain ⟨i, hi, heq⟩ := List.mem_map.mp hmem
        have hi' := List.mem_range'_1.mp hi
        have : i = k + 1 :=
          tryPath_inj tmp i (k + 1) (by omega) (by omega) (by omega)
            (by omega) heq
        omega
      have hfc :
          (isolatedFs ((List.range' 1 k).map (tryPath tmp))).pathExists
              (tryPath tmp (k + 1)) = .ok false := by
        cases hcv :
            (isolatedFs ((List.range' 1 k).map (tryPath tmp))).pathExists
              (tryPath tmp (k + 1)) with
        | exc => exact absurd hcv (by intro hx; cases hx)
        | ok b =>
            cases b with
            | true => exact absurd hcv hfree
            | false => rfl
      have hreach := allocLoop_reaches
        (isolatedFs ((List.range' 1 k).map (tryPath tmp))) tmp fuel 1 (k + 1)
        (by omega) (by omega) hmin hfree
      rw [allocScratch, hreach,
        stopAt_create_true _ tmp (k + 1) hfc rfl]
    show (match allocScratch (isolatedFs (scenario tmp fuel k).1) tmp fuel
        with
      | AllocResult.done p =>
          (if p = "" then (scenario tmp fuel k).1
            else (scenario tmp fuel k).1 ++ [p],
           (scenario tmp fuel k).2 ++ [AllocResult.done p])
      | AllocResult.outOfFuel =>
          ((scenario tmp fuel k).1,
           (scenario tmp fuel k).2 ++ [AllocResult.outOfFuel]))
      = _
    rw [hprev, hcall]
    have hr : List.range' 1 (k + 1) = List.range' 1 k ++ [k + 1] := by
      rw [List.range'_concat 1 k]
      congr 1
      simp [Nat.add_comm 1 k]
    rw [hr]
    simp [tryPath_ne_empty tmp (k + 1)]

/-- The first candidate of the isolation scenario does not exist on an
empty disk (used by witnesses). -/
theorem isolatedFs_nil_free (tmp : String) (i : Nat) :
    (isolatedFs []).pathExists (tryPath tmp i) ≠ .ok true := by
  intro h
  cases h

/-! ## Claims C1, C6, C7, C9, C10 -/

/-- C1 counterexample: with the override `/src` configured and the `res`
subfolder present both directly under the override and under
`<override>/Rack`, the resolver sets `systemDir` to `/src/Rack`, not to the
override path `/src` — the claim's `systemDir = <override>` conjunct fails
even though `templatePath = <override>/template.vcv` holds. -/
theorem c1_counterexample :
    (resolvePaths cfgSrc fsC1 "").systemDir ≠ "/src" ∧
    (resolvePaths cfgSrc fsC1 "").systemDir = "/src/Rack" ∧
    (resolvePaths cfgSrc fsC1 "").templatePath = "/src/template.vcv" := by
  refine ⟨?_, ?_, ?_⟩ <;> decide

/-- C1 (amended): for every platform configuration, if the source-directory
override is configured and the conventional resource subfolder exists under
the override-derived system directory `<override><sep>Rack`, then
`systemDir` is `<override><sep>Rack`, `templatePath` is
`<override><sep>template.vcv`, and no platform-default fallback branch
runs: the result does not depend on the platform, on the install prefix, or
on the common-program-files query. -/
theorem c1_source_dir_override (cfg : BuildConfig) (fsExists : String → Bool)
    (commonProgFiles : String) (srcDir : String)
    (hsrc : cfg.sourceDir = some srcDir)
    (hres : fsExists (sysJoin (srcDir ++ cfg.osSep ++ "Rack") "res") = true) :
    (resolvePaths cfg fsExists commonProgFiles).systemDir
        = srcDir ++ cfg.osSep ++ "Rack" ∧
    (resolvePaths cfg fsExists commonProgFiles).templatePath
        = srcDir ++ cfg.osSep ++ "template.vcv" ∧
    ∀ (platform' : Platform) (px cpf : String),
      resolvePaths ⟨cfg.sourceDir, cfg.osSep, platform', px⟩ fsExists cpf
        = resolvePaths cfg fsExists commonProgFiles := by
  rw [resolvePaths_some_res cfg fsExists commonProgFiles srcDir hsrc hres]
  refine ⟨rfl, rfl, ?_⟩
  intro platform' px cpf
  rw [resolvePaths_some_res ⟨cfg.sourceDir, cfg.osSep, platform', px⟩
      fsExists cpf srcDir hsrc hres]

/-- Witness for `c1_source_dir_override` at the concrete configuration. -/
theorem c1_source_dir_override_witness :
    (resolvePaths cfgSrc fsC1 "").systemDir = "/src/Rack" ∧
    (resolvePaths cfgSrc fsC1 "").templatePath = "/src/template.vcv" := by
  have h := c1_source_dir_override cfgSrc fsC1 "" "/src" rfl (by decide)
  exact ⟨h.1, h.2.1⟩

/-- C6 counterexample: the resource subfolder exists but the template-patch
file does not, yet `templatePath` is not left empty — the code sets it
without checking that the file exists. -/
theorem c6_counterexample :
    fsC6 "/src/template.vcv" = false ∧
    (resolvePaths cfgSrc fsC6 "").templatePath ≠ "" := by
  refine ⟨?_, ?_⟩ <;> decide

/-- C6 (amended): in the source-directory-override branch, if the resource
subfolder exists under the override-derived system directory then
`templatePath` is set to `<override><sep>template.vcv` unconditionally —
in particular even when that file does not exist on disk. -/
theorem c6_template_set_unconditionally (cfg : BuildConfig)
    (fsExists : String → Bool) (commonProgFiles : String) (srcDir : String)
    (hsrc : cfg.sourceDir = some srcDir)
    (hres : fsExists (sysJoin (srcDir ++ cfg.osSep ++ "Rack") "res") = true)
    (_htmpl : fsExists (srcDir ++ cfg.osSep ++ "template.vcv") = false) :
    (resolvePaths cfg fsExists commonProgFiles).templatePath
      = srcDir ++ cfg.osSep ++ "template.vcv" := by
  rw [resolvePaths_some_res cfg fsExists commonProgFiles srcDir hsrc hres]

/-- Witness for `c6_template_set_unconditionally`. -/
theorem c6_template_set_unconditionally_witness :
    (resolvePaths cfgSrc fsC6 "").templatePath = "/src/template.vcv" :=
  c6_template_set_unconditionally cfgSrc fsC6 "" "/src" rfl (by decide)
    (by decide)

/-- C7: for every platform configuration, if `systemDir` resolves to the
empty string then `userDir`, `bundlePath` and `templatePath` are also all
empty. -/
theorem c7_empty_systemDir_propagates (cfg : BuildConfig)
    (fsExists : String → Bool) (commonProgFiles : String)
    (h : (resolvePaths cfg fsExists commonProgFiles).systemDir = "") :
    (resolvePaths cfg fsExists commonProgFiles).userDir = "" ∧
    (resolvePaths cfg fsExists commonProgFiles).bundlePath = "" ∧
    (resolvePaths cfg fsExists commonProgFiles).templatePath = "" := by
  have hfb : ∀ sd0,
      resolvePaths cfg fsExists commonProgFiles
          = fallbackBlock cfg commonProgFiles sd0 "" "" →
      (resolvePaths cfg fsExists commonProgFiles).userDir = "" ∧
      (resolvePaths cfg fsExists commonProgFiles).bundlePath = "" ∧
      (resolvePaths cfg fsExists commonProgFiles).templatePath = "" := by
    intro sd0 heq
    by_cases hsd : fallbackSystemDir cfg commonProgFiles sd0 = ""
    · rw [heq, fallbackBlock_empty cfg commonProgFiles sd0 "" "" hsd]
      exact ⟨rfl, rfl, rfl⟩
    · rw [heq, fallbackBlock_ne_empty cfg commonProgFiles sd0 "" "" hsd] at h
      exact absurd h hsd
  cases hsrc : cfg.sourceDir with
  | some srcDir =>
      cases hres :
          fsExists (sysJoin (srcDir ++ cfg.osSep ++ "Rack") "res") with
      | true =>
          rw [resolvePaths_some_res cfg fsExists commonProgFiles srcDir hsrc
              hres] at h
          exact absurd h
            (append_ne_empty_of_right (srcDir ++ cfg.osSep) "Rack"
              (by decide))
      | false =>
          exact hfb _ (resolvePaths_some_nores cfg fsExists commonProgFiles
            srcDir hsrc hres)
  | none =>
      exact hfb _ (resolvePaths_none cfg fsExists commonProgFiles hsrc)

/-- Witness for `c7_empty_systemDir_propagates`: a Windows build without a
source-directory override and with an empty common-program-files query. -/
theorem c7_empty_systemDir_propagates_witness :
    (resolvePaths
        { sourceDir := none, osSep := "\\", platform := .win,
          pluginPrefix := "/usr/local" } (fun _ => false) "").systemDir = ""
      ∧
    ((resolvePaths
        { sourceDir := none, osSep := "\\", platform := .win,
          pluginPrefix := "/usr/local" } (fun _ => false) "").userDir = "" ∧
     (resolvePaths
        { sourceDir := none, osSep := "\\", platform := .win,
          pluginPrefix := "/usr/local" } (fun _ => false) "").bundlePath = ""
      ∧
     (resolvePaths
        { sourceDir := none, osSep := "\\", platform := .win,
          pluginPrefix := "/usr/local" } (fun _ => false) "").templatePath
        = "") :=
  ⟨by decide,
   c7_empty_systemDir_propagates
     { sourceDir := none, osSep := "\\", platform := .win,
       pluginPrefix := "/usr/local" } (fun _ => false) "" (by decide)⟩

/-- C9: in the source-directory-override branch (resource subfolder exists
under the override-derived system directory), `bundlePath` is never
assigned and stays empty while `systemDir` and `templatePath` are set
non-empty; and whenever `bundlePath` is non-empty, the fallback branch
produced it as `sysJoin systemDir "PluginManifests"` with `systemDir`
non-empty. -/
theorem c9_bundlePath_only_in_fallback (cfg : BuildConfig)
    (fsExists : String → Bool) (commonProgFiles : String) :
    (∀ srcDir, cfg.sourceDir = some srcDir →
      fsExists (sysJoin (srcDir ++ cfg.osSep ++ "Rack") "res") = true →
      (resolvePaths cfg fsExists commonProgFiles).bundlePath = "" ∧
      (resolvePaths cfg fsExists commonProgFiles).systemDir ≠ "" ∧
      (resolvePaths cfg fsExists commonProgFiles).templatePath ≠ "") ∧
    ((resolvePaths cfg fsExists commonProgFiles).bundlePath ≠ "" →
      (resolvePaths cfg fsExists commonProgFiles).systemDir ≠ "" ∧
      (resolvePaths cfg fsExists commonProgFiles).bundlePath
        = sysJoin (resolvePaths cfg fsExists commonProgFiles).systemDir
            "PluginManifests") := by
  constructor
  · intro srcDir hsrc hres
    rw [resolvePaths_some_res cfg fsExists commonProgFiles srcDir hsrc hres]
    exact ⟨rfl,
      append_ne_empty_of_right (srcDir ++ cfg.osSep) "Rack" (by decide),
      append_ne_empty_of_right (srcDir ++ cfg.osSep) "template.vcv"
        (by decide)⟩
  · intro hbp
    have hfb : ∀ sd0,
        resolvePaths cfg fsExists commonProgFiles
            = fallbackBlock cfg commonProgFiles sd0 "" "" →
        (resolvePaths cfg fsExists commonProgFiles).systemDir ≠ "" ∧
        (resolvePaths cfg fsExists commonProgFiles).bundlePath
          = sysJoin (resolvePaths cfg fsExists commonProgFiles).systemDir
              "PluginManifests" := by
      intro sd0 heq
      by_cases hsd : fallbackSystemDir cfg commonProgFiles sd0 = ""
      · rw [heq, fallbackBlock_empty cfg commonProgFiles sd0 "" "" hsd]
          at hbp
        exact absurd rfl hbp
      · rw [heq, fallbackBlock_ne_empty cfg commonProgFiles sd0 "" "" hsd]
        exact ⟨hsd, rfl⟩
    cases hsrc : cfg.sourceDir with
    | some srcDir =>
        cases hres :
            fsExists (sysJoin (srcDir ++ cfg.osSep ++ "Rack") "res") with
        | true =>
            rw [resolvePaths_some_res cfg fsExists commonProgFiles srcDir
                hsrc hres] at hbp
            exact absurd rfl hbp
        | false =>
            exact hfb _ (resolvePaths_some_nores cfg fsExists
              commonProgFiles srcDir hsrc hres)
    | none =>
        exact hfb _ (resolvePaths_none cfg fsExists commonProgFiles hsrc)

/-- Witness for `c9_bundlePath_only_in_fallback`: the override branch at the
concrete configuration. -/
theorem c9_bundlePath_only_in_fallback_witness :
    (resolvePaths cfgSrc fsC1 "").bundlePath = "" ∧
    (resolvePaths cfgSrc fsC1 "").systemDir ≠ "" ∧
    (resolvePaths cfgSrc fsC1 "").templatePath ≠ "" :=
  (c9_bundlePath_only_in_fallback cfgSrc fsC1 "").1 "/src" rfl (by decide)

/-- C10: at most one installation warning is emitted; the two warnings are
mutually exclusive, the empty-`systemDir` check takes precedence, and when
`systemDir` is empty no on-disk existence query is performed at all. -/
theorem c10_warnings_mutually_exclusive (systemDir : String)
    (fsExists : String → Bool) :
    (installWarnings systemDir fsExists).1.length ≤ 1 ∧
    ¬ (InstallWarning.emptySystemDir ∈ (installWarnings systemDir fsExists).1
        ∧
       InstallWarning.missingSystemDir
         ∈ (installWarnings systemDir fsExists).1) ∧
    (systemDir = "" →
      (installWarnings systemDir fsExists).1 = [.emptySystemDir] ∧
      (installWarnings systemDir fsExists).2 = []) := by
  by_cases hempty : systemDir = ""
  · have heq : installWarnings systemDir fsExists = ([.emptySystemDir], []) := by
      unfold installWarnings
      rw [if_pos hempty]
    rw [heq]
    refine ⟨by decide, ?_, fun _ => ⟨rfl, rfl⟩⟩
    intro hmem
    exact absurd hmem.2 (by decide)
  · have heq : installWarnings systemDir fsExists
        = if ! fsExists systemDir then ([.missingSystemDir], [systemDir])
          else ([], [systemDir]) := by
      unfold installWarnings
      rw [if_neg hempty]
    cases hex : ! fsExists systemDir with
    | true =>
        rw [heq, if_pos (by rw [hex])]
        refine ⟨by simp, ?_, fun hc => absurd hc hempty⟩
        rintro ⟨h1, -⟩
        simp at h1
    | false =>
        rw [heq, if_neg (by rw [hex]; decide)]
        refine ⟨by simp, ?_, fun hc => absurd hc hempty⟩
        rintro ⟨h1, -⟩
        simp at h1

/-- Witness for `c10_warnings_mutually_exclusive` at an empty system
directory. -/
theorem c10_warnings_mutually_exclusive_witness :
    (installWarnings "" (fun _ => true)).1 = [.emptySystemDir] ∧
    (installWarnings "" (fun _ => true)).2 = [] :=
  (c10_warnings_mutually_exclusive "" (fun _ => true)).2.2 rfl

/-! ## Claims C2, C3 -/

/-- C3: for every filesystem behaviour — existence checks, creation
results, and exceptions — once a first candidate whose existence check
does not return `true` is reached (index `j`, every earlier candidate
existing), the allocation block completes at that candidate for any
sufficient fuel: it always yields a `done` outcome (no exception
propagates and the loop does not continue past `j`, whether or not
creation succeeds), with the empty sentinel when the existence check
raised, the candidate path when creation succeeds, and the empty sentinel
when creation fails or raises. -/
theorem c3_allocator_never_raises_and_stops (fs : ScratchFs) (tmp : String)
    (j : Nat) (hj : 1 ≤ j)
    (hmin : ∀ i, 1 ≤ i → i < j → fs.pathExists (tryPath tmp i) = .ok true)
    (hfree : fs.pathExists (tryPath tmp j) ≠ .ok true) :
    ∀ fuel, j ≤ fuel →
      (∃ p, allocScratch fs tmp fuel = .done p) ∧
      (fs.pathExists (tryPath tmp j) = .exc →
        allocScratch fs tmp fuel = .done "") ∧
      (fs.pathExists (tryPath tmp j) = .ok false →
        fs.createDirs (tryPath tmp j) = .ok true →
        allocScratch fs tmp fuel = .done (tryPath tmp j)) ∧
      (fs.pathExists (tryPath tmp j) = .ok false →
        fs.createDirs (tryPath tmp j) ≠ .ok true →
        allocScratch fs tmp fuel = .done "") := by
  intro fuel hfuel
  have heq : allocScratch fs tmp fuel = stopAt fs tmp j :=
    allocLoop_reaches fs tmp fuel 1 j hj (by omega) hmin hfree
  refine ⟨?_, ?_, ?_, ?_⟩
  · rw [heq]
    cases hx : fs.pathExists (tryPath tmp j) with
    | exc => exact ⟨"", stopAt_exc fs tmp j hx⟩
    | ok b =>
        cases b with
        | true => exact absurd hx hfree
        | false =>
            cases hc : fs.createDirs (tryPath tmp j) with
            | exc => exact ⟨"", stopAt_create_exc fs tmp j hx hc⟩
            | ok b' =>
                cases b' with
                | true => exact ⟨_, stopAt_create_true fs tmp j hx hc⟩
                | false => exact ⟨"", stopAt_create_false fs tmp j hx hc⟩
  · intro hx
    rw [heq, stopAt_exc fs tmp j hx]
  · intro hx hc
    rw [heq, stopAt_create_true fs tmp j hx hc]
  · intro hx hc
    cases hcv : fs.createDirs (tryPath tmp j) with
    | exc => rw [heq, stopAt_create_exc fs tmp j hx hcv]
    | ok b =>
        cases b with
        | true => exact absurd hcv hc
        | false => rw [heq, stopAt_create_false fs tmp j hx hcv]

/-- Witness for `c3_allocator_never_raises_and_stops` on the
creation-failure filesystem: the block stops at the first candidate and
yields the empty sentinel. -/
theorem c3_allocator_never_raises_and_stops_witness :
    (∃ p, allocScratch fsCreateFail "/tmp" 1 = .done p) ∧
    (fsCreateFail.pathExists (tryPath "/tmp" 1) = .exc →
      allocScratch fsCreateFail "/tmp" 1 = .done "") ∧
    (fsCreateFail.pathExists (tryPath "/tmp" 1) = .ok false →
      fsCreateFail.createDirs (tryPath "/tmp" 1) = .ok true →
      allocScratch fsCreateFail "/tmp" 1 = .done (tryPath "/tmp" 1)) ∧
    (fsCreateFail.pathExists (tryPath "/tmp" 1) = .ok false →
      fsCreateFail.createDirs (tryPath "/tmp" 1) ≠ .ok true →
      allocScratch fsCreateFail "/tmp" 1 = .done "") :=
  c3_allocator_never_raises_and_stops fsCreateFail "/tmp" 1 le_rfl
    (fun _ h1 h2 => absurd h2 (by omega))
    (by simp [fsCreateFail]) 1 le_rfl

/-- C2 counterexample: the claim fails at `N = 100000000`.  The 24-byte
`uidBuf` holds at most 23 characters beside the terminator, of which the
fixed header takes 15, so `snprintf` truncates 9-digit counters: the
candidate paths for counters `10000000` and `100000000` coincide, violating
the claimed pairwise distinctness of the `N` paths. -/
theorem c2_counterexample : ¬ isolationClaim "/tmp" 100000000 := by
  rintro ⟨fuel, h⟩
  exact ((h 100000000 (by norm_num) le_rfl).2.2 10000000 (by norm_num)
    (by norm_num) (by norm_num)) (by decide)

/-- C2 (amended, restricted to `N ≤ 99999999` as the counterexample
forces): for every temp root and every `1 ≤ N ≤ 99999999`, the `N`
isolated allocator calls yield the candidate paths with zero-padded
counter suffixes `1, …, N` in increasing order, pairwise distinct, each
present on disk immediately after its call. -/
theorem c2_isolated_allocations (tmp : String) (N : Nat) (h1 : 1 ≤ N)
    (h2 : N ≤ 99999999) : isolationClaim tmp N := by
  refine ⟨N, ?_⟩
  intro k hk1 hkN
  refine ⟨?_, ?_, ?_⟩
  · rw [scenario_eq tmp N N h2 le_rfl k hkN]
    show ((List.range' 1 k).map
        (fun i => AllocResult.done (tryPath tmp i))).getLast?
      = some (.done (tryPath tmp k))
    obtain ⟨k', rfl⟩ : ∃ k', k = k' + 1 := ⟨k - 1, by omega⟩
    have hr : List.range' 1 (k' + 1) = List.range' 1 k' ++ [k' + 1] := by
      rw [List.range'_concat 1 k']
      congr 1
      simp [Nat.add_comm 1 k']
    rw [hr, List.map_append]
    simp only [List.map_cons, List.map_nil]
    rw [List.getLast?_concat]
  · rw [scenario_eq tmp N N h2 le_rfl k hkN]
    show ((List.range' 1 k).map (tryPath tmp)).contains (tryPath tmp k)
      = true
    exact contains_iff_mem.mpr
      (List.mem_map_of_mem (tryPath tmp)
        (List.mem_range'_1.mpr ⟨hk1, by omega⟩))
  · intro j hj1 hjN hne heq
    exact hne (tryPath_inj tmp j k hj1 (by omega) hk1 (by omega) heq)

/-- Witness for `c2_isolated_allocations` at two calls in `/tmp`. -/
theorem c2_isolated_allocations_witness : isolationClaim "/tmp" 2 :=
  c2_isolated_allocations "/tmp" 2 (by decide) (by decide)

/-! ## Claims C4, C5, C8 -/

/-- C4: after the construction sequence completes, the event state's
root-widget reference is the very same object as the constructed scene
(and not the context, engine, event state or window), and the
process-wide registered context is the very same object as the
constructed context aggregate (and not any other constructed object). -/
theorem c4_context_graph_wiring (autosavePath templatePath : String) :
    (buildContextGraph autosavePath templatePath).eventRootWidget
        = (buildContextGraph autosavePath templatePath).scene ∧
    (buildContextGraph autosavePath templatePath).scene.isSome = true ∧
    (buildContextGraph autosavePath templatePath).registered
        = (buildContextGraph autosavePath templatePath).context ∧
    (buildContextGraph autosavePath templatePath).context.isSome = true ∧
    (buildContextGraph autosavePath templatePath).eventRootWidget
        ≠ (buildContextGraph autosavePath templatePath).context ∧
    (buildContextGraph autosavePath templatePath).eventRootWidget
        ≠ (buildContextGraph autosavePath templatePath).engine ∧
    (buildContextGraph autosavePath templatePath).eventRootWidget
        ≠ (buildContextGraph autosavePath templatePath).event ∧
    (buildContextGraph autosavePath templatePath).eventRootWidget
        ≠ (buildContextGraph autosavePath templatePath).window ∧
    (buildContextGraph autosavePath templatePath).registered
        ≠ (buildContextGraph autosavePath templatePath).scene := by
  exact ⟨rfl, rfl, rfl, rfl,
    (by decide : (some 5 : Option Nat) ≠ some 0),
    (by decide : (some 5 : Option Nat) ≠ some 1),
    (by decide : (some 5 : Option Nat) ≠ some 4),
    (by decide : (some 5 : Option Nat) ≠ some 6),
    (by decide : (some 0 : Option Nat) ≠ some 5)⟩

/-- C5 counterexample at a concrete post-run state (template patch
resolved, scratch directory allocated): after teardown, `templatePath` is
not the empty string — the code clears only `bundlePath`, `systemDir` and
`userDir` — so the claim's "all four RuntimePaths fields are empty" fails
even though the other three fields are cleared and the scratch path is
gone from disk. -/
theorem c5_counterexample :
    ¬ (((stateAfterRun.autosavePath ≠ "" →
          (teardown stateAfterRun).fsExists stateAfterRun.autosavePath
            = false) ∧
        (teardown stateAfterRun).systemDir = "" ∧
        (teardown stateAfterRun).userDir = "" ∧
        (teardown stateAfterRun).bundlePath = "" ∧
        (teardown stateAfterRun).templatePath = "")) := by
  intro h
  have htp := h.2.2.2.2
  have : stateAfterRun.templatePath = "" := htp
  exact absurd this (by decide)

/-- C5 (amended): after teardown, the scratch path — if it had been
non-empty — no longer exists on disk, and `systemDir`, `userDir` and
`bundlePath` are the empty string; the fourth RuntimePaths field,
`templatePath`, is a local that teardown does not clear, so it keeps its
value. -/
theorem c5_teardown (s : AppState) :
    (s.autosavePath ≠ "" →
      (teardown s).fsExists s.autosavePath = false) ∧
    (teardown s).systemDir = "" ∧
    (teardown s).userDir = "" ∧
    (teardown s).bundlePath = "" ∧
    (teardown s).templatePath = s.templatePath := by
  refine ⟨?_, rfl, rfl, rfl, rfl⟩
  intro hne
  show (if s.autosavePath ≠ "" then
      removeRecursively s.fsExists s.autosavePath
    else s.fsExists) s.autosavePath = false
  rw [if_pos hne]
  unfold removeRecursively
  rw [if_pos (Or.inl rfl)]

/-- Witness for `c5_teardown` at the concrete post-run state, with the
non-emptiness hypothesis of the scratch path discharged. -/
theorem c5_teardown_witness :
    (teardown stateAfterRun).fsExists stateAfterRun.autosavePath = false ∧
    (teardown stateAfterRun).systemDir = "" ∧
    (teardown stateAfterRun).userDir = "" ∧
    (teardown stateAfterRun).bundlePath = "" ∧
    (teardown stateAfterRun).templatePath = stateAfterRun.templatePath :=
  ⟨(c5_teardown stateAfterRun).1 (by decide), (c5_teardown stateAfterRun).2⟩

/-- C8: in every run in which `main` returns — the allocation loop stopped
and teardown completed — the exit code is 0, whatever the warnings and
whatever the scratch allocation produced; no other exit code exists at
this layer. -/
theorem c8_exit_code_zero (cfg : BuildConfig) (fsExists : String → Bool)
    (commonProgFiles : String) (allocFs : ScratchFs) (tmp : String)
    (fuel : Nat) (out : RunOutcome)
    (h : runMain cfg fsExists commonProgFiles allocFs tmp fuel = some out) :
    out.exitCode = 0 := by
  unfold runMain at h
  cases halloc : allocScratch allocFs tmp fuel with
  | done p =>
      rw [halloc] at h
      rw [← Option.some.inj h]
      rfl
  | outOfFuel =>
      rw [halloc] at h
      cases h

/-- Witness for `c8_exit_code_zero`: a run with installation warnings (the
template file missing from the override) and a failing scratch-directory
creation still exits with code 0. -/
theorem c8_exit_code_zero_witness :
    runMain cfgSrc fsC6 "" fsCreateFail "/tmp" 1
        = some (finishRun (resolvePaths cfgSrc fsC6 "")
            (installWarnings (resolvePaths cfgSrc fsC6 "").systemDir fsC6).1
            fsC6 "") ∧
    (finishRun (resolvePaths cfgSrc fsC6 "")
        (installWarnings (resolvePaths cfgSrc fsC6 "").systemDir fsC6).1
        fsC6 "").exitCode = 0 :=
  ⟨rfl,
   c8_exit_code_zero cfgSrc fsC6 "" fsCreateFail "/tmp" 1 _ rfl⟩

end CardinalRemote
